import Mathlib

/-!
Shallow embedding of the kancolle fleet-expression parser and renderer
(src/kancolle/fe.py): the segment parser `resolve_expr`, the four
language renderers, the language dispatch `to_string`, and the public
entry point `resolve`.

Strings are processed as `List Char`.  The Python regular expressions
of fe.py are embedded as explicit scanning functions with the same
leftmost, greedy-with-backtracking semantics, specialised to the fixed
patterns the source uses.  Character classes model the ASCII reading of
the Python classes \w and \d.  The Python float infinity sentinel for an unbounded
`max_count` is modelled as `none : Option Nat`; the `ValueError` that
applying int to an empty string raises during position parsing is modelled by `Option`
failure, so the embedded `resolve` returns `none` exactly where the
Python `resolve` raises.
-/

/-- One constraint segment of a fleet expression (class
FleetExpressionComponent in fe.py).  `max_count = none` models the
Python float infinity unbounded sentinel. -/
structure FleetExpressionComponent where
  ship_types : List String
  min_count : Nat
  max_count : Option Nat
  positions : List Nat
  level_condition : Nat
  negated : Bool
deriving DecidableEq

/-- ASCII model of the Python regex class `\w`. -/
def isWordChar (c : Char) : Bool := c.isAlphanum || c = '_'

/-- The regex class `[\w|@#]` used by the ship-type pattern. -/
def isTypeChar (c : Char) : Bool := isWordChar c || c = '|' || c = '@' || c = '#'

/-- The regex class `[\d,]` used by the position pattern. -/
def isPosChar (c : Char) : Bool := c.isDigit || c = ','

/-- Python `int` on a string of decimal digits. -/
def digitsToNat (ds : List Char) : Nat :=
  ds.foldl (fun n c => 10 * n + (c.toNat - '0'.toNat)) 0

/-- The second capture group of the quantity regex
`\{(\d+)(?:,(\d+|\*|))?\}`: absent (group is None, `{n}` case), an
empty or `*` match (unbounded, `{n,}` / `{n,*}` cases), or an explicit
number (`{n,m}` case). -/
inductive QtyMax where
  | absent
  | unb
  | num (m : Nat)
deriving DecidableEq

/-- `re.search` semantics: try the matcher at every suffix, leftmost
first.  (All patterns of fe.py need at least one character, so the
empty suffix never matches and is not tried.) -/
def research {α : Type} (f : List Char → Option α) : List Char → Option α
  | [] => none
  | c :: cs =>
    match f (c :: cs) with
    | some r => some r
    | none => research f cs

/-- The match of the pattern ([\w|@#]+)(?:\{|\[|$) anchored at the start
of the segment: a nonempty leading run
of type characters whose following character is `{` or `[` or the end
of the string (Python `$` also matches just before a single trailing
newline).  Backtracking cannot shorten the greedy run, because every
character inside the run is a type character and hence not `{`, `[`
or the end; so the match succeeds exactly on the maximal run. -/
def matchShipTypes (cs : List Char) : Option (List Char) :=
  let run := cs.takeWhile isTypeChar
  let rest := cs.drop run.length
  if run.isEmpty then none
  else
    match rest with
    | [] => some run
    | c :: rest2 =>
      if c = '{' || c = '[' then some run
      else if c = '\n' && rest2.isEmpty then some run
      else none

/-- The quantity pattern `\{(\d+)(?:,(\d+|\*|))?\}` matched at the head
of `cs`, returning (group 1 as a number, the shape of group 2). -/
def matchQtyAt (cs : List Char) : Option (Nat × QtyMax) :=
  match cs with
  | '{' :: rest =>
    let ds := rest.takeWhile Char.isDigit
    let rest2 := rest.drop ds.length
    if ds.isEmpty then none
    else
      match rest2 with
      | '}' :: _ => some (digitsToNat ds, QtyMax.absent)
      | ',' :: rest3 =>
        let es := rest3.takeWhile Char.isDigit
        let rest4 := rest3.drop es.length
        if es.isEmpty then
          match rest3 with
          | '*' :: '}' :: _ => some (digitsToNat ds, QtyMax.unb)
          | '}' :: _ => some (digitsToNat ds, QtyMax.unb)
          | _ => none
        else
          match rest4 with
          | '}' :: _ => some (digitsToNat ds, QtyMax.num (digitsToNat es))
          | _ => none
      | _ => none
  | _ => none

/-- The position pattern `\[([\d,]+)\]` matched at the head of `cs`,
returning the raw group-1 characters.  As with the type pattern, only
the maximal `[\d,]` run can be followed by `]`. -/
def matchPosAt (cs : List Char) : Option (List Char) :=
  match cs with
  | '[' :: rest =>
    let run := rest.takeWhile isPosChar
    let rest2 := rest.drop run.length
    if run.isEmpty then none
    else
      match rest2 with
      | ']' :: _ => some run
      | _ => none
  | _ => none

/-- The level pattern `level>(\d+)` matched at the head of `cs`. -/
def matchLevelAt (cs : List Char) : Option Nat :=
  match cs with
  | 'l' :: 'e' :: 'v' :: 'e' :: 'l' :: '>' :: rest =>
    let ds := rest.takeWhile Char.isDigit
    if ds.isEmpty then none else some (digitsToNat ds)
  | _ => none

/-- Python `str.split(sep)` for a one-character separator: `""` splits
to `[""]`, adjacent separators produce empty parts. -/
def splitOnChar (sep : Char) : List Char → List (List Char)
  | [] => [[]]
  | c :: rest =>
    match splitOnChar sep rest with
    | [] => [[]]
    | g :: gs => if c = sep then [] :: g :: gs else (c :: g) :: gs

/-- The leading-negation test of resolve_expr, on the raw characters. -/
def seg_negated (cs : List Char) : Bool :=
  match cs with
  | '!' :: _ => true
  | _ => false

/-- The negation strip of resolve_expr: `expr[1:]` when the segment
starts with `!`. -/
def stripNeg (cs : List Char) : List Char :=
  match cs with
  | '!' :: rest => rest
  | _ => cs

/-- Ship-type extraction of resolve_expr: split the matched run on `|`;
append `ANY` when the segment contains a `*` and `ANY` is not already
listed; default to `[ANY]` when the type pattern does not match. -/
def parse_ship_types (cs : List Char) : List String :=
  match matchShipTypes cs with
  | some run =>
    let ts := (splitOnChar '|' run).map String.mk
    if cs.contains '*' && !(ts.contains "ANY") then ts ++ ["ANY"] else ts
  | none => ["ANY"]

/-- Quantity extraction of resolve_expr: `{n}` gives (n, n); `{n,}` and
`{n,*}` give (n, unbounded); `{n,m}` gives (n, m); no match gives
(1, 1). -/
def parse_quantity (cs : List Char) : Nat × Option Nat :=
  match research matchQtyAt cs with
  | some (n, QtyMax.absent) => (n, some n)
  | some (n, QtyMax.unb) => (n, none)
  | some (n, QtyMax.num m) => (n, some m)
  | none => (1, some 1)

/-- Position extraction of resolve_expr: split group 1 on `,` and apply
`int` to each part; int of an empty string raises (modelled as `none`), so an empty
part between commas makes the whole parse fail. -/
def parse_positions (cs : List Char) : Option (List Nat) :=
  match research matchPosAt cs with
  | some run =>
    (splitOnChar ',' run).mapM
      (fun part => if part.isEmpty then none else some (digitsToNat part))
  | none => some []

/-- Level extraction of resolve_expr: 0 when the pattern is absent. -/
def parse_level (cs : List Char) : Nat :=
  (research matchLevelAt cs).getD 0

/-- FleetExpression.resolve_expr: parse one `-`-separated segment into
a component.  Returns `none` where the Python code raises (position
parsing applying `int` to an empty string). -/
def resolve_expr (expr : String) : Option FleetExpressionComponent :=
  let cs := stripNeg expr.data
  match parse_positions cs with
  | none => none
  | some ps =>
    some { ship_types := parse_ship_types cs
           min_count := (parse_quantity cs).1
           max_count := (parse_quantity cs).2
           positions := ps
           level_condition := parse_level cs
           negated := seg_negated expr.data }

/-- FleetExpression._convert_ship_type: the identity, per the source. -/
def convert_ship_type (st : String) : String := st

/-- The skip test of every renderer loop:
ANY in component.ship_types and len(component.ship_types) == 1. -/
def is_sole_any (c : FleetExpressionComponent) : Bool :=
  c.ship_types.contains "ANY" && c.ship_types.length == 1

/-- The components every renderer actually emits a clause for (the
loop skips sole-ANY components via `continue`). -/
def visibleComponents (comps : List FleetExpressionComponent) :
    List FleetExpressionComponent :=
  comps.filter (fun c => !is_sole_any c)

/-- Whether any component of the whole sequence lists ANY among its
ship types (the has_any flag of every renderer). -/
def hasAny (comps : List FleetExpressionComponent) : Bool :=
  comps.any (fun c => c.ship_types.contains "ANY")

/-- Python string formatting of a possibly-infinite max_count:
the float infinity prints as inf. -/
def max_str : Option Nat → String
  | some m => toString m
  | none => "inf"

/-- One clause of FleetExpression._to_chinese_simplified. -/
def clause_hans (c : FleetExpressionComponent) : String :=
  let ship_types :=
    String.intercalate "/" ((c.ship_types.filter (· != "ANY")).map convert_ship_type)
  let count :=
    if c.max_count = some c.min_count then toString c.min_count
    else if c.min_count = 0 ∧ c.max_count ≠ none then "至多" ++ max_str c.max_count
    else if 0 < c.min_count ∧ c.max_count = none then "至少" ++ toString c.min_count
    else toString c.min_count ++ "~" ++ max_str c.max_count
  let position := if c.positions.contains 0 then "旗舰" else ""
  let level :=
    if 0 < c.level_condition then "(等级>" ++ toString c.level_condition ++ ")" else ""
  let negated := if c.negated then "不能带" else "需要"
  negated ++ count ++ "个" ++ ship_types ++ position ++ level

/-- The clause list _to_chinese_simplified joins (the `result` list,
including the trailing clause appended when no component has ANY). -/
def hans_clauses (comps : List FleetExpressionComponent) : List String :=
  let result := (visibleComponents comps).map clause_hans
  if hasAny comps then result else result ++ ["不能带其它舰种"]

/-- FleetExpression._to_chinese_simplified. -/
def to_chinese_simplified (comps : List FleetExpressionComponent) : String :=
  String.intercalate "，" (hans_clauses comps)

/-- One clause of FleetExpression._to_chinese_traditional. -/
def clause_hant (c : FleetExpressionComponent) : String :=
  let ship_types :=
    String.intercalate "/" ((c.ship_types.filter (· != "ANY")).map convert_ship_type)
  let count :=
    if c.max_count = some c.min_count then toString c.min_count
    else if c.min_count = 0 ∧ c.max_count ≠ none then "至多" ++ max_str c.max_count
    else if 0 < c.min_count ∧ c.max_count = none then "至少" ++ toString c.min_count
    else toString c.min_count ++ "~" ++ max_str c.max_count
  let position := if c.positions.contains 0 then "旗艦" else ""
  let level :=
    if 0 < c.level_condition then "(等級>" ++ toString c.level_condition ++ ")" else ""
  let negated := if c.negated then "不能帶" else "需要"
  negated ++ count ++ "個" ++ ship_types ++ position ++ level

/-- The clause list _to_chinese_traditional joins. -/
def hant_clauses (comps : List FleetExpressionComponent) : List String :=
  let result := (visibleComponents comps).map clause_hant
  if hasAny comps then result else result ++ ["不能帶其它艦種"]

/-- FleetExpression._to_chinese_traditional. -/
def to_chinese_traditional (comps : List FleetExpressionComponent) : String :=
  String.intercalate "，" (hant_clauses comps)

/-- One clause of FleetExpression._to_japanese. -/
def clause_ja (c : FleetExpressionComponent) : String :=
  let ship_types :=
    String.intercalate "/" ((c.ship_types.filter (· != "ANY")).map convert_ship_type)
  let count :=
    if c.max_count = some c.min_count then toString c.min_count
    else if c.min_count = 0 ∧ c.max_count ≠ none then "最大" ++ max_str c.max_count
    else if 0 < c.min_count ∧ c.max_count = none then "少なくとも" ++ toString c.min_count
    else toString c.min_count ++ "~" ++ max_str c.max_count
  let position := if c.positions.contains 0 then "旗艦" else ""
  let level :=
    if 0 < c.level_condition then "(レベル>" ++ toString c.level_condition ++ ")" else ""
  let negated := if c.negated then "不可" else "必要"
  ship_types ++ count ++ "隻" ++ negated ++ position ++ level

/-- The clause list _to_japanese joins. -/
def ja_clauses (comps : List FleetExpressionComponent) : List String :=
  let result := (visibleComponents comps).map clause_ja
  if hasAny comps then result else result ++ ["他の艦種は不可"]

/-- FleetExpression._to_japanese. -/
def to_japanese (comps : List FleetExpressionComponent) : String :=
  String.intercalate "、" (ja_clauses comps)

/-- One clause of FleetExpression._to_english. -/
def clause_en (c : FleetExpressionComponent) : String :=
  let ship_types :=
    String.intercalate " or " ((c.ship_types.filter (· != "ANY")).map convert_ship_type)
  let count :=
    if c.max_count = some c.min_count then "exactly " ++ toString c.min_count
    else if c.min_count = 0 ∧ c.max_count ≠ none then "up to " ++ max_str c.max_count
    else if 0 < c.min_count ∧ c.max_count = none then "at least " ++ toString c.min_count
    else toString c.min_count ++ " to " ++ max_str c.max_count
  let position := if c.positions.contains 0 then " as flagship" else ""
  let level :=
    if 0 < c.level_condition then " (level > " ++ toString c.level_condition ++ ")" else ""
  let negated := if c.negated then "Cannot have" else "Require"
  negated ++ " " ++ count ++ " " ++ ship_types ++ position ++ level

/-- The clause list _to_english joins. -/
def english_clauses (comps : List FleetExpressionComponent) : List String :=
  let result := (visibleComponents comps).map clause_en
  if hasAny comps then result else result ++ ["No other ship types allowed"]

/-- FleetExpression._to_english. -/
def to_english (comps : List FleetExpressionComponent) : String :=
  String.intercalate ", " (english_clauses comps)

/-- FleetExpression.to_string: dispatch on the language tag; every tag
other than zh_Hans, zh_Hant and ja falls to the English branch. -/
def to_string (comps : List FleetExpressionComponent) (lang : String) : String :=
  if lang = "zh_Hans" then to_chinese_simplified comps
  else if lang = "zh_Hant" then to_chinese_traditional comps
  else if lang = "ja" then to_japanese comps
  else to_english comps

/-- The module-level `resolve(expr, lang)`: split on `-`, parse each
segment, render.  `none` models the Python call raising. -/
def resolve (expr : String) (lang : String) : Option String :=
  match ((splitOnChar '-' expr.data).map String.mk).mapM resolve_expr with
  | some comps => some (to_string comps lang)
  | none => none

/-- The guard of the first quantity-phrase branch of every renderer:
`component.min_count == component.max_count`. -/
def qty_exact (c : FleetExpressionComponent) : Prop :=
  c.max_count = some c.min_count

/-- The guard of the second branch:
min_count == 0 and max_count finite (less than the float infinity). -/
def qty_bounded_above (c : FleetExpressionComponent) : Prop :=
  c.min_count = 0 ∧ c.max_count ≠ none

/-- The guard of the third branch:
min_count > 0 and max_count equal to the float infinity. -/
def qty_bounded_below (c : FleetExpressionComponent) : Prop :=
  0 < c.min_count ∧ c.max_count = none

/-- The `else` branch (range): none of the three guards holds. -/
def qty_range (c : FleetExpressionComponent) : Prop :=
  ¬ qty_exact c ∧ ¬ qty_bounded_above c ∧ ¬ qty_bounded_below c

/-- Exactly one of the four quantity-phrase cases holds for `c`. -/
def exactly_one_qty_case (c : FleetExpressionComponent) : Prop :=
  (qty_exact c ∧ ¬ qty_bounded_above c ∧ ¬ qty_bounded_below c ∧ ¬ qty_range c) ∨
  (¬ qty_exact c ∧ qty_bounded_above c ∧ ¬ qty_bounded_below c ∧ ¬ qty_range c) ∨
  (¬ qty_exact c ∧ ¬ qty_bounded_above c ∧ qty_bounded_below c ∧ ¬ qty_range c) ∨
  (¬ qty_exact c ∧ ¬ qty_bounded_above c ∧ ¬ qty_bounded_below c ∧ qty_range c)

/-- C1: resolving the expression BB{1}[0]-CL{1}-DD{4} in English yields
exactly the sentence stated in the spec (one exact-quantity clause per
segment, a flagship marker on the first, and the trailing closing
clause because no segment mentions ANY). -/
theorem C1_english_example : resolve "BB{1}[0]-CL{1}-DD{4}" "en" =
    some "Require exactly 1 BB as flagship, Require exactly 1 CL, Require exactly 4 DD, No other ship types allowed" := by
  decide

/-- C10: resolve is not total: an expression whose position block has an
empty entry between commas makes position parsing apply integer
conversion to an empty string, which fails (modelled by `none`, where
the Python code raises ValueError), on both inputs named in the claim. -/
theorem C10_position_failure :
    resolve "BB{1}[,]" "en" = none ∧ resolve "BB[1,,2]" "en" = none := by
  decide

/-- C2: contrary to the claim, the renderers exclude every component
whose sole ship type is ANY, even when it carries another constraint:
the segment ANY[0,level>70] parses to a sole-ANY component with a
level condition of 70 (the code docstring reads it as a flagship-level
requirement), yet every language renders the whole expression as the
empty string. -/
theorem C2_sole_any_always_excluded :
    resolve_expr "ANY[0,level>70]" =
      some { ship_types := ["ANY"], min_count := 1, max_count := some 1,
             positions := [], level_condition := 70, negated := false } ∧
    resolve "ANY[0,level>70]" "zh_Hans" = some "" ∧
    resolve "ANY[0,level>70]" "zh_Hant" = some "" ∧
    resolve "ANY[0,level>70]" "ja" = some "" ∧
    resolve "ANY[0,level>70]" "en" = some "" := by
  decide

/-- C3 counterexample: the bare segment consisting of the single token
star does not parse to min 0 with unbounded max; it yields the default
min = max = 1 (the type pattern fails on the star, the segment defaults
to sole ANY, and no quantity token is found). -/
theorem C3_bare_star_cex :
    (resolve_expr "*").map (fun c => (c.min_count, c.max_count)) = some (1, some 1) := by
  decide

/-- C3 amended: for every segment in which the quantity-token search
finds no match, parsing yields min_count = max_count = 1, with no
exception for the bare star token. -/
theorem C3_no_quantity_token (expr : String) (c : FleetExpressionComponent)
    (hq : research matchQtyAt (stripNeg expr.data) = none)
    (hc : resolve_expr expr = some c) :
    c.min_count = 1 ∧ c.max_count = some 1 := by
  have h2 : parse_quantity (stripNeg expr.data) = (1, some 1) := by
    unfold parse_quantity; rw [hq]
  unfold resolve_expr at hc
  cases hp : parse_positions (stripNeg expr.data) with
  | none => simp [hp] at hc
  | some ps =>
    simp only [hp] at hc
    injection hc with hcc
    subst hcc
    simp [h2]

/-- Witness for C3 amended at the bare star segment. -/
theorem C3_no_quantity_token_witness :
    research matchQtyAt (stripNeg ("*" : String).data) = none ∧
    resolve_expr "*" = some { ship_types := ["ANY"], min_count := 1, max_count := some 1,
                              positions := [], level_condition := 0, negated := false } ∧
    (({ ship_types := ["ANY"], min_count := 1, max_count := some 1,
        positions := [], level_condition := 0, negated := false } :
       FleetExpressionComponent).min_count = 1 ∧
     ({ ship_types := ["ANY"], min_count := 1, max_count := some 1,
        positions := [], level_condition := 0, negated := false } :
       FleetExpressionComponent).max_count = some 1) :=
  ⟨by decide, by decide, C3_no_quantity_token "*" _ (by decide) (by decide)⟩

/-- C4: contrary to the claim, a trailing star after a concrete
type-alternatives list does not yield the alternatives with ANY
appended: the type pattern requires an opening brace, an opening
bracket or the end of the segment right after the run, so on DD|DE*
it fails and the segment defaults to the sole wildcard ANY (the branch
that appends ANY never fires for this shape, although the module
docstring documents the star suffix as unlimited others). -/
theorem C4_star_suffix_defaults_any :
    resolve_expr "DD|DE*" =
      some { ship_types := ["ANY"], min_count := 1, max_count := some 1,
             positions := [], level_condition := 0, negated := false } := by
  decide

/-- C5 counterexample: an unsupported language tag does not fail; the
tag xx is silently rendered by the English branch. -/
theorem C5_silent_english_cex :
    resolve "BB{1}" "xx" = some "Require exactly 1 BB, No other ship types allowed" := by
  decide

/-- C5 amended: a language tag other than zh_Hans, zh_Hant and ja is
not rejected; the dispatch falls through to the English renderer. -/
theorem C5_unknown_lang_english (comps : List FleetExpressionComponent) (lang : String)
    (h1 : lang ≠ "zh_Hans") (h2 : lang ≠ "zh_Hant") (h3 : lang ≠ "ja") :
    to_string comps lang = to_english comps := by
  unfold to_string
  rw [if_neg h1, if_neg h2, if_neg h3]

/-- Witness for C5 amended at the tag xx and the empty component
list. -/
theorem C5_unknown_lang_english_witness :
    ("xx" : String) ≠ "zh_Hans" ∧ ("xx" : String) ≠ "zh_Hant" ∧ ("xx" : String) ≠ "ja" ∧
    to_string [] "xx" = to_english [] :=
  ⟨by decide, by decide, by decide,
   C5_unknown_lang_english [] "xx" (by decide) (by decide) (by decide)⟩

/-- C6 counterexample: resolving the empty expression does not fail
with a MalformedExpression error; it returns the empty string (the
lone empty segment parses to the sole-ANY placeholder, which is
skipped, and its ANY suppresses the trailing clause). -/
theorem C6_empty_no_error_cex : resolve "" "en" = some "" := by
  decide

/-- C6 amended: for every language tag, resolving the empty expression
returns normally with the empty string; no error is raised. -/
theorem C6_empty_returns_empty (lang : String) : resolve "" lang = some "" := by
  have hts : to_string [({ ship_types := ["ANY"], min_count := 1, max_count := some 1,
                           positions := [], level_condition := 0, negated := false } :
                         FleetExpressionComponent)] lang = "" := by
    unfold to_string
    by_cases h1 : lang = "zh_Hans"
    · rw [if_pos h1]; decide
    · rw [if_neg h1]
      by_cases h2 : lang = "zh_Hant"
      · rw [if_pos h2]; decide
      · rw [if_neg h2]
        by_cases h3 : lang = "ja"
        · rw [if_pos h3]; decide
        · rw [if_neg h3]; decide
  show some (to_string [({ ship_types := ["ANY"], min_count := 1, max_count := some 1,
                           positions := [], level_condition := 0, negated := false } :
                         FleetExpressionComponent)] lang) = some ""
  rw [hts]

/-- C7 counterexample: the rendered output is not always non-empty:
the valid expression ANY renders to the empty string (its only
component is the skipped placeholder and the trailing clause is
suppressed). -/
theorem C7_empty_output_cex : resolve "ANY" "en" = some "" := by
  decide

/-- C7 amended: for every expression that parses, each renderer joins
one clause per component whose type set is not exactly the sole ANY,
plus one trailing closing clause exactly when no component mentions
ANY; the joined output is empty when this clause list is empty. -/
theorem C7_clause_count (expr : String) (comps : List FleetExpressionComponent)
    (h : ((splitOnChar '-' expr.data).map String.mk).mapM resolve_expr = some comps) :
    (hans_clauses comps).length =
      (visibleComponents comps).length + (if hasAny comps then 0 else 1) ∧
    (hant_clauses comps).length =
      (visibleComponents comps).length + (if hasAny comps then 0 else 1) ∧
    (ja_clauses comps).length =
      (visibleComponents comps).length + (if hasAny comps then 0 else 1) ∧
    (english_clauses comps).length =
      (visibleComponents comps).length + (if hasAny comps then 0 else 1) := by
  unfold hans_clauses hant_clauses ja_clauses english_clauses
  cases hA : hasAny comps <;> simp [hA]

/-- Witness for C7 amended at the expression BB with quantity one. -/
theorem C7_clause_count_witness :
    ((splitOnChar '-' ("BB{1}" : String).data).map String.mk).mapM resolve_expr =
      some [{ ship_types := ["BB"], min_count := 1, max_count := some 1,
              positions := [], level_condition := 0, negated := false }] ∧
    (english_clauses [{ ship_types := ["BB"], min_count := 1, max_count := some 1,
                        positions := [], level_condition := 0, negated := false }]).length =
      (visibleComponents [{ ship_types := ["BB"], min_count := 1, max_count := some 1,
                            positions := [], level_condition := 0, negated := false }]).length +
        (if hasAny [{ ship_types := ["BB"], min_count := 1, max_count := some 1,
                      positions := [], level_condition := 0, negated := false }] then 0 else 1) :=
  ⟨by decide, (C7_clause_count "BB{1}" _ (by decide)).2.2.2⟩

/-- C8 counterexample: the invariant min_count less-or-equal max_count
fails on parsed components: the segment DD{3,1} parses to min 3 and
finite max 1, passed through unvalidated. -/
theorem C8_min_gt_max_cex :
    (resolve_expr "DD{3,1}").map (fun c => (c.min_count, c.max_count)) = some (3, some 1) := by
  decide

/-- C8 amended: min_count is at most max_count whenever both bounds are
finite, provided the segment does not carry an explicit two-number
quantity token whose first number exceeds the second (such tokens are
passed through unvalidated). -/
theorem C8_min_le_max (expr : String) (c : FleetExpressionComponent) (m : Nat)
    (hq : ∀ n k, research matchQtyAt (stripNeg expr.data) = some (n, QtyMax.num k) → n ≤ k)
    (hc : resolve_expr expr = some c)
    (hm : c.max_count = some m) :
    c.min_count ≤ m := by
  unfold resolve_expr at hc
  cases hp : parse_positions (stripNeg expr.data) with
  | none => simp [hp] at hc
  | some ps =>
    simp only [hp] at hc
    injection hc with hcc
    subst hcc
    simp only at hm ⊢
    unfold parse_quantity at hm ⊢
    cases hr : research matchQtyAt (stripNeg expr.data) with
    | none => rw [hr] at hm; simp at hm ⊢; omega
    | some nq =>
      obtain ⟨n, qm⟩ := nq
      cases qm with
      | absent => rw [hr] at hm; simp at hm ⊢; omega
      | unb => rw [hr] at hm; simp at hm
      | num k =>
        rw [hr] at hm
        simp at hm ⊢
        have := hq n k hr
        omega

/-- Witness for C8 amended at the quantity-free segment DD. -/
theorem C8_min_le_max_witness :
    resolve_expr "DD" = some { ship_types := ["DD"], min_count := 1, max_count := some 1,
                               positions := [], level_condition := 0, negated := false } ∧
    ({ ship_types := ["DD"], min_count := 1, max_count := some 1,
       positions := [], level_condition := 0, negated := false } :
      FleetExpressionComponent).min_count ≤ 1 := by
  refine ⟨by decide, ?_⟩
  refine C8_min_le_max "DD"
    { ship_types := ["DD"], min_count := 1, max_count := some 1,
      positions := [], level_condition := 0, negated := false } 1 ?_ (by decide) (by decide)
  intro n k hk
  have hnone : research matchQtyAt (stripNeg ("DD" : String).data) = none := by decide
  rw [hnone] at hk
  exact Option.noConfusion hk

/-- C9 counterexample: the quantity cases are not mutually exclusive on
parsed components: the segment DD{0} parses to min = max = 0, which
satisfies both the exact guard and the bounded-above guard. -/
theorem C9_overlap_cex :
    resolve_expr "DD{0}" =
      some { ship_types := ["DD"], min_count := 0, max_count := some 0,
             positions := [], level_condition := 0, negated := false } ∧
    qty_exact { ship_types := ["DD"], min_count := 0, max_count := some 0,
                positions := [], level_condition := 0, negated := false } ∧
    qty_bounded_above { ship_types := ["DD"], min_count := 0, max_count := some 0,
                        positions := [], level_condition := 0, negated := false } := by
  refine ⟨by decide, ?_, ?_⟩
  · unfold qty_exact; decide
  · unfold qty_bounded_above; decide

/-- C9 amended: the four quantity cases cover every component, and
exactly one of them applies except when min_count = max_count = 0,
where exact and bounded-above overlap (the renderer ordered chain then
selects the exact branch). -/
theorem C9_exactly_one (c : FleetExpressionComponent)
    (h : ¬(c.min_count = 0 ∧ c.max_count = some 0)) :
    exactly_one_qty_case c := by
  obtain ⟨ts, mn, mx, ps, lv, ng⟩ := c
  unfold exactly_one_qty_case qty_range qty_exact qty_bounded_above qty_bounded_below at *
  simp only at *
  cases mx with
  | none => simp at *; omega
  | some m => simp at *; omega

/-- Witness for C9 amended at a component with min = max = 1. -/
theorem C9_exactly_one_witness :
    ¬(({ ship_types := ["BB"], min_count := 1, max_count := some 1,
         positions := [], level_condition := 0, negated := false } :
        FleetExpressionComponent).min_count = 0 ∧
      ({ ship_types := ["BB"], min_count := 1, max_count := some 1,
         positions := [], level_condition := 0, negated := false } :
        FleetExpressionComponent).max_count = some 0) ∧
    exactly_one_qty_case { ship_types := ["BB"], min_count := 1, max_count := some 1,
                           positions := [], level_condition := 0, negated := false } :=
  ⟨by decide, C9_exactly_one _ (by decide)⟩
